import Mathlib

/-!
Verification development for the astroresearch-agent topic-analysis pipeline.

The Python sources embedded here are:
* `backend/app/main.py` — request model, Gemini summarization wrapper and the
  `analyze_topic` route (classification of the topic into calculation
  branches, arXiv record normalization, fallback overview / future-work text);
* `backend/app/services/astro_math.py` — Schwarzschild radius and Kepler
  orbital-period formulas;
* `backend/app/services/gemini_client.py` — the structured report generator
  and its two-section response parsing.

Python floats are modelled by exact rationals (`ℚ`); the float square root is
modelled by a rational approximation (value-level decimal output is never the
subject of a claim, only the shape of formatted strings).  External
collaborators (the arXiv HTTP fetch, the Gemini model call, the wall clock and
the stdlib timestamp parser) are abstracted as explicit parameters, with
concrete executable models provided for witnesses.
-/

namespace AstroAgent

/-! ## Python string primitives

Models of the Python `str` operations used by the sources, written over
`List Char`.  All needles used by the code are nonempty ASCII strings, so the
models only need to agree with Python on that domain.
-/

/-- Characters stripped by Python's `str.strip()` (ASCII whitespace; the
sources only ever strip ASCII text). -/
def pyIsSpace (c : Char) : Bool :=
  c == ' ' || c == '\t' || c == '\n' || c == '\r' || c == '\x0b' || c == '\x0c'

/-- Drop leading then trailing whitespace, as Python `str.strip()`. -/
def pyStripList (l : List Char) : List Char :=
  ((l.dropWhile pyIsSpace).reverse.dropWhile pyIsSpace).reverse

/-- Python `str.strip()`. -/
def pyStrip (s : String) : String :=
  ⟨pyStripList s.data⟩

/-- Split at the first occurrence of `sep` (nonempty), as Python
`s.split(sep, 1)` does when `sep in s`; `none` when `sep` does not occur. -/
def splitAtFirst (sep : List Char) : List Char → Option (List Char × List Char)
  | [] => none
  | c :: rest =>
    if sep.isPrefixOf (c :: rest) then some ([], (c :: rest).drop sep.length)
    else
      match splitAtFirst sep rest with
      | some (b, a) => some (c :: b, a)
      | none => none

/-- Python's `needle in hay` substring test (for nonempty needles). -/
def pyIn (needle hay : String) : Bool :=
  (splitAtFirst needle.data hay.data).isSome

/-- Python `s.replace(old, new)` for a nonempty `old`: replace every
non-overlapping occurrence, scanning left to right.  Fuel-based structural
recursion; each step consumes at least one character and one unit of fuel,
so `fuel = l.length` (see `replaceList`) is always sufficient. -/
def replaceListAux (sep repl : List Char) : Nat → List Char → List Char
  | 0, l => l
  | _ + 1, [] => []
  | fuel + 1, c :: rest =>
    if sep.isPrefixOf (c :: rest) then
      repl ++ replaceListAux sep repl fuel ((c :: rest).drop sep.length)
    else
      c :: replaceListAux sep repl fuel rest

def replaceList (sep repl l : List Char) : List Char :=
  replaceListAux sep repl l.length l

/-- Python `str.replace` on `String`. -/
def pyReplace (s old new : String) : String :=
  ⟨replaceList old.data new.data s.data⟩

/-- Python `str.lower()` (ASCII case folding, which is all the sources use). -/
def pyLower (s : String) : String :=
  ⟨s.data.map Char.toLower⟩

/-- Python `s.endswith(t)`. -/
def pyEndsWith (s t : String) : Bool :=
  t.data.isSuffixOf s.data

/-! ## Data model (`main.py` pydantic models) -/

/-- `AnalyzeTopicRequest` (main.py lines 36-38): `topic: str`,
`max_papers: int = 3` (the default is applied by callers below). -/
structure AnalyzeTopicRequest where
  topic : String
  max_papers : Int
deriving DecidableEq

/-- A Python `datetime.datetime`: calendar fields plus an optional UTC offset.
`tzOffsetMinutes = none` models a timezone-naive datetime (`tzinfo is None`),
`some k` a timezone-aware one with offset `k` minutes. -/
structure PyDateTime where
  year : Nat
  month : Nat
  day : Nat
  hour : Nat
  minute : Nat
  second : Nat
  tzOffsetMinutes : Option Int
deriving DecidableEq

/-- The process wall clock feeding `datetime.utcnow()`, passed explicitly. -/
structure Clock where
  year : Nat
  month : Nat
  day : Nat
  hour : Nat
  minute : Nat
  second : Nat
deriving DecidableEq

/-- Python `datetime.utcnow()`: the current UTC wall-clock reading as a
timezone-NAIVE datetime (its `tzinfo` is `None`, per the stdlib contract). -/
def utcnow (c : Clock) : PyDateTime :=
  ⟨c.year, c.month, c.day, c.hour, c.minute, c.second, none⟩

/-- `PaperSummary` (main.py lines 41-47). -/
structure PaperSummary where
  title : String
  authors : List String
  summary : String
  url : String
  published : PyDateTime
deriving DecidableEq

/-- `CalculationResult` (main.py lines 49-52). -/
structure CalculationResult where
  label : String
  value : String
  details : String
deriving DecidableEq

/-- `AnalyzeTopicResponse` (main.py lines 55-60). -/
structure AnalyzeTopicResponse where
  topic : String
  overview : String
  papers : List PaperSummary
  calculations : List CalculationResult
  future_work : String

/-- One raw record from `search_arxiv` as consumed through `dict.get` in
`analyze_topic`; `none` models an absent key. -/
structure RawRecord where
  title : Option String
  authors : Option (List String)
  summary : Option String
  url : Option String
  published : Option String
deriving DecidableEq

/-! ## Physics formulas (`astro_math.py`), floats as exact rationals -/

def G : ℚ := 6.67430e-11

def C : ℚ := 2.99792458e8

def M_SUN : ℚ := 1.98847e30

def AU : ℚ := 1.495978707e11

def YEAR_SEC : ℚ := 365.25 * 24 * 3600

/-- `schwarzschild_radius_solar_masses`: `Rs = 2 G M / c^2` in meters. -/
def schwarzschild_radius_solar_masses (mass_solar : ℚ) : ℚ :=
  2 * G * (mass_solar * M_SUN) / (C ^ 2)

/-- `schwarzschild_radius_km`: convenience wrapper in kilometers. -/
def schwarzschild_radius_km (mass_solar : ℚ) : ℚ :=
  schwarzschild_radius_solar_masses mass_solar / 1000

/-- Rational floor-square-root at `10^-6` precision; models the value of the
float `math.sqrt` on nonnegative inputs (the exact decimal digits of orbital
periods are not the subject of any claim). -/
def ratSqrt (x : ℚ) : ℚ :=
  ((Nat.sqrt (x.num.toNat * x.den * 10 ^ 12) : ℚ)) / ((x.den : ℚ) * 10 ^ 6)

/-- Python `math.sqrt`: raises `ValueError: math domain error` on negative
input, modelled as an `Except` error. -/
def math_sqrtE (x : ℚ) : Except String ℚ :=
  if x < 0 then Except.error "math domain error" else Except.ok (ratSqrt x)

/-- `kepler_orbital_period_years` (astro_math.py lines 32-51): guard
`star_mass_solar <= 0` raising `ValueError("Star mass must be positive")`,
then `sqrt(a_au ** 3 / star_mass_solar)`. -/
def kepler_orbital_period_years (a_au star_mass_solar : ℚ) : Except String ℚ :=
  if star_mass_solar ≤ 0 then Except.error "Star mass must be positive"
  else math_sqrtE (a_au ^ 3 / star_mass_solar)

/-- `kepler_orbital_period_days`: years wrapper times 365.25; a `ValueError`
from the years function propagates. -/
def kepler_orbital_period_days (a_au star_mass_solar : ℚ) : Except String ℚ :=
  (kepler_orbital_period_years a_au star_mass_solar).map (· * 365.25)

/-- Whether an `Except` computation returned normally. -/
def isOkE : Except String ℚ → Bool
  | Except.ok _ => true
  | Except.error _ => false

/-- Extract the payload of a call that is separately proven never to fail
(Python would propagate the exception; the call sites in `analyze_topic`
use fixed positive parameters). -/
def getOkQ : Except String ℚ → ℚ
  | Except.ok v => v
  | Except.error _ => 0

/-! ## Python number formatting (f-string format specs used by `main.py`) -/

/-- Round half to even, the rounding used by Python `format` on floats. -/
def roundHalfEven (q : ℚ) : Int :=
  let f : Int := Int.fdiv q.num (q.den : Int)
  let r : ℚ := q - (f : ℚ)
  if r < 1 / 2 then f
  else if 1 / 2 < r then f + 1
  else if f % 2 = 0 then f else f + 1

/-- Group a digit run with thousands separators, as the `,` format flag. -/
def insertCommasAux : List Char → List Char
  | a :: b :: c :: d :: rest => a :: b :: c :: ',' :: insertCommasAux (d :: rest)
  | l => l

def insertCommas (ds : List Char) : List Char :=
  (insertCommasAux ds.reverse).reverse

def padZeros (k : Nat) (l : List Char) : List Char :=
  List.replicate (k - l.length) '0' ++ l

/-- Python `format(x, ',.2f')` / `format(x, '.1f')` on the rational model of
a float: fixed-point with `decimals` digits, optional thousands grouping. -/
def fmtFixed (decimals : Nat) (grouped : Bool) (q : ℚ) : String :=
  let scaled : Int := roundHalfEven (q * (10 : ℚ) ^ decimals)
  let sgn : List Char := if scaled < 0 then ['-'] else []
  let n : Nat := scaled.natAbs
  let ip : Nat := n / 10 ^ decimals
  let fp : Nat := n % 10 ^ decimals
  let ipd : List Char :=
    if grouped then insertCommas (Nat.repr ip).data else (Nat.repr ip).data
  ⟨sgn ++ ipd ++ '.' :: padZeros decimals (Nat.repr fp).data⟩

/-- The `{x:,.2f}` format used for kilometre values. -/
def fmtComma2 (q : ℚ) : String := fmtFixed 2 true q

/-- The `{x:.1f}` format used for day values. -/
def fmt1 (q : ℚ) : String := fmtFixed 1 false q

/-! ## Calculation branches of `analyze_topic` (main.py lines 165-231) -/

/-- The topic-based calculation block of `analyze_topic`: `black hole` topics
get the two Schwarzschild entries, otherwise `orbit`/`exoplanet`/`planet`
topics get the two Kepler entries, otherwise the single generic
Schwarzschild example entry. -/
def computeCalculations (topic : String) : List CalculationResult :=
  if pyIn "black hole" (pyLower topic) then
    [⟨"Schwarzschild radius (stellar-mass black hole)",
      fmtComma2 (schwarzschild_radius_km 10) ++ " km",
      "Event horizon radius for a 10.0 M☉ black hole."⟩,
     ⟨"Schwarzschild radius (supermassive black hole)",
      fmtComma2 (schwarzschild_radius_km 4000000) ++ " km",
      "Event horizon radius for a 4.0e+06 M☉ supermassive black hole (similar to the Milky Way's center)."⟩]
  else if pyIn "orbit" (pyLower topic) || pyIn "exoplanet" (pyLower topic)
      || pyIn "planet" (pyLower topic) then
    [⟨"Orbital period at 1 AU",
      fmt1 (getOkQ (kepler_orbital_period_days 1 1)) ++ " days",
      "Approximate orbital period of an Earth-like orbit around a Sun-like star."⟩,
     ⟨"Orbital period at 5 AU",
      fmt1 (getOkQ (kepler_orbital_period_days 5 1)) ++ " days",
      "Approximate orbital period for a Jupiter-like orbit around a Sun-like star."⟩]
  else
    [⟨"Schwarzschild radius (example)",
      fmtComma2 (schwarzschild_radius_km 10) ++ " km",
      "Event horizon radius for a 10.0 M☉ black hole. Used as a generic astrophysical scale for this topic."⟩]

/-! ## Search-record normalization (main.py lines 143-163) -/

/-- The string handed to `datetime.fromisoformat`: `e.get("published") or ""`
with a trailing `"Z"` rewritten via `str.replace("Z", "+00:00")`. -/
def publishedRaw (r : RawRecord) : String :=
  let p := r.published.getD ""
  if pyEndsWith p "Z" then pyReplace p "Z" "+00:00" else p

/-- Normalize one raw record into a `PaperSummary`; `parse` abstracts
`datetime.fromisoformat` (an exception becomes `none`), `clk` the wall clock
behind the `datetime.utcnow()` fallback. -/
def normOne (parse : String → Option PyDateTime) (clk : Clock)
    (r : RawRecord) : PaperSummary :=
  ⟨r.title.getD "", r.authors.getD [], r.summary.getD "", r.url.getD "",
    match parse (publishedRaw r) with
    | some d => d
    | none => utcnow clk⟩

/-- The normalization loop of `analyze_topic`: one `PaperSummary` appended per
entry, in order. -/
def normalize (parse : String → Option PyDateTime) (clk : Clock)
    (rs : List RawRecord) : List PaperSummary :=
  rs.map (normOne parse clk)

/-! ## A concrete model of `datetime.fromisoformat`

Model of Python's `datetime.fromisoformat` restricted to the
`YYYY-MM-DDTHH:MM:SS` and `YYYY-MM-DDTHH:MM:SS±HH:MM` shapes the pipeline
encounters; every other input fails, as `fromisoformat` raises `ValueError`.
The pipeline theorems quantify over arbitrary parsers; this model
instantiates them in witnesses.
-/

def digitVal (c : Char) : Option Nat :=
  if c.isDigit then some (c.toNat - 48) else none

def d2 (a b : Char) : Option Nat := do
  let x ← digitVal a
  let y ← digitVal b
  pure (10 * x + y)

def d4 (a b c d : Char) : Option Nat := do
  let x ← d2 a b
  let y ← d2 c d
  pure (100 * x + y)

def mkDT (y mo dd h mi ss : Nat) (tz : Option Int) : Option PyDateTime :=
  if 1 ≤ mo ∧ mo ≤ 12 ∧ 1 ≤ dd ∧ dd ≤ 31 ∧ h ≤ 23 ∧ mi ≤ 59 ∧ ss ≤ 59 then
    some ⟨y, mo, dd, h, mi, ss, tz⟩
  else none

def fromisoformatModel (s : String) : Option PyDateTime :=
  match s.data with
  | [y1, y2, y3, y4, '-', mo1, mo2, '-', dd1, dd2, 'T',
     h1, h2, ':', mi1, mi2, ':', s1, s2] => do
    let y ← d4 y1 y2 y3 y4
    let mo ← d2 mo1 mo2
    let dd ← d2 dd1 dd2
    let h ← d2 h1 h2
    let mi ← d2 mi1 mi2
    let ss ← d2 s1 s2
    mkDT y mo dd h mi ss none
  | [y1, y2, y3, y4, '-', mo1, mo2, '-', dd1, dd2, 'T',
     h1, h2, ':', mi1, mi2, ':', s1, s2, sg, oh1, oh2, ':', om1, om2] => do
    let y ← d4 y1 y2 y3 y4
    let mo ← d2 mo1 mo2
    let dd ← d2 dd1 dd2
    let h ← d2 h1 h2
    let mi ← d2 mi1 mi2
    let ss ← d2 s1 s2
    let oh ← d2 oh1 oh2
    let om ← d2 om1 om2
    let sign ← if sg = '+' then some (1 : Int)
               else if sg = '-' then some (-1 : Int) else none
    if oh ≤ 23 ∧ om ≤ 59 then
      mkDT y mo dd h mi ss (some (sign * (oh * 60 + om)))
    else none
  | _ => none

/-! ## Gemini collaborators -/

/-- Outcome of one call to the generative provider: the call can throw, or
return a response whose `text` attribute is absent/`None` (`none`) or a
string. -/
inductive GenOutcome where
  | throws : GenOutcome
  | returns : Option String → GenOutcome

/-- Response parsing of `gemini_client.generate_report` (lines 128-143):
split at the first `FUTURE_WORK:`; the part before it has every occurrence
of `OVERVIEW:` removed by `str.replace` and is stripped; the part after is
stripped.  Without the marker the whole text, stripped, is the overview and
future-work is empty. -/
def parseGeminiText (text : String) : String × String :=
  match splitAtFirst ("FUTURE_WORK:".data) text.data with
  | some (b, a) =>
    (pyStrip ⟨replaceList ("OVERVIEW:".data) [] b⟩, pyStrip ⟨a⟩)
  | none => (pyStrip text, "")

/-- `gemini_client.generate_report`: missing/empty credential short-circuits
to two empty strings; an exception from the model call yields two empty
strings; otherwise `text = getattr(response, "text", "") or ""` is parsed.
The prompt construction only shapes the request abstracted by `outcome`. -/
def generate_report (apiKey : Option String) (outcome : GenOutcome) :
    String × String :=
  if apiKey.getD "" = "" then ("", "")
  else
    match outcome with
    | GenOutcome.throws => ("", "")
    | GenOutcome.returns t => parseGeminiText (t.getD "")

/-- `main.summarize_with_gemini` (main.py lines 66-125): returns `""` when
the key is absent, the call throws, or `text` is falsy; otherwise
`text.strip()`.  The topic/papers/calculations arguments only shape the
prompt sent to the provider (abstracted by `gem`). -/
def summarize_with_gemini (apiKey : Option String) (gem : GenOutcome)
    (topic : String) (papers : List PaperSummary)
    (calculations : List CalculationResult) : String :=
  if apiKey.getD "" = "" then ""
  else
    match gem with
    | GenOutcome.throws => ""
    | GenOutcome.returns t =>
      match t with
      | none => ""
      | some text => if text = "" then "" else pyStrip text

/-! ## The `analyze_topic` route (main.py lines 136-257) -/

/-- The second argument passed to `search_arxiv` at main.py line 139: the
request's `max_papers` field (whose pydantic default is 3). -/
def requestedResultCount (payload : AnalyzeTopicRequest) : Int :=
  payload.max_papers

/-- The deterministic fallback overview (main.py lines 239-243). -/
def fallbackOverview (n : Nat) (topic : String) : String :=
  "This report is based on " ++ toString n ++
    " arXiv result(s) for the topic '" ++ topic ++
    "'. The summaries below are extracted directly from the arXiv abstracts."

/-- The fixed future-work sentence (main.py lines 245-249). -/
def futureWorkText : String :=
  "In future iterations, this agent will include more detailed reasoning, topic clustering, citation graph analysis, and astrophysical calculations tailored to the query."

/-- `analyze_topic`: fetch (`search` abstracts `search_arxiv`), normalize,
compute topic calculations, summarize (`apiKey`/`gem` abstract the Gemini
environment), choose overview (LLM text if truthy, else fallback), fixed
future-work, assemble the response. -/
def analyze (search : String → Int → List RawRecord)
    (parse : String → Option PyDateTime) (clk : Clock)
    (apiKey : Option String) (gem : GenOutcome)
    (payload : AnalyzeTopicRequest) : AnalyzeTopicResponse :=
  let entries := search payload.topic (requestedResultCount payload)
  let papers := normalize parse clk entries
  let calculations := computeCalculations payload.topic
  let summary :=
    summarize_with_gemini apiKey gem payload.topic papers calculations
  ⟨payload.topic,
    if summary = "" then fallbackOverview papers.length payload.topic
    else summary,
    papers, calculations, futureWorkText⟩

/-! ## Definitions taken from the specification's words

These two definitions follow the specification text, not the Python sources,
and exist only to be compared with the source-derived definitions above. -/

/-- Modelled from the spec (§4.1): the four first-match-wins keyword tiers
said to derive the search result-count budget from the lowercased topic.
No such classifier exists in the sources; `analyze_topic` passes
`payload.max_papers` to the search provider. -/
def specBudget (topic : String) : Int :=
  let t := pyLower topic
  if pyIn "universe" t || pyIn "cosmology" t || pyIn "astrophysics" t then 8
  else if pyIn "dark matter" t || pyIn "dark energy" t || pyIn "inflation" t
      || pyIn "structure formation" t then 6
  else if pyIn "galaxy" t || pyIn "exoplanet" t || pyIn "planet" t
      || pyIn "accretion" t || pyIn "supernova" t then 5
  else 3

/-- The claim's wording of the response parsing ("everything before the
marker with an `OVERVIEW:` prefix stripped if present"), for comparison with
the source-derived `parseGeminiText`, which removes every occurrence. -/
def specParseGeminiText (text : String) : String × String :=
  match splitAtFirst ("FUTURE_WORK:".data) text.data with
  | some (b, a) =>
    let b2 := if ("OVERVIEW:".data).isPrefixOf b
              then b.drop ("OVERVIEW:".data).length else b
    (pyStrip ⟨b2⟩, pyStrip ⟨a⟩)
  | none => (pyStrip text, "")

/-! ## Concrete inputs shared by witnesses and counterexamples -/

def clk0 : Clock := ⟨2024, 1, 1, 0, 0, 0⟩

def recGood : RawRecord :=
  ⟨some "Paper title", some ["A. Author"], some "An abstract.",
    some "http://arxiv.org/abs/0000.0000", some "2024-01-01T00:00:00Z"⟩

def recBad : RawRecord :=
  ⟨some "Other title", some [], some "", some "", some "not-a-date"⟩

def emptySearch : String → Int → List RawRecord := fun _ _ => []

end AstroAgent

namespace AstroAgent

/-! ## Helper lemmas -/

/-- Dropping a predicate that holds everywhere empties the list. -/
theorem all_dropWhile_nil (l : List Char) (h : l.all pyIsSpace = true) :
    l.dropWhile pyIsSpace = [] := by
  induction l with
  | nil => rfl
  | cons c rest ih =>
    simp only [List.all_cons, Bool.and_eq_true] at h
    simp [List.dropWhile_cons, h.1, ih h.2]

/-- Stripping a whitespace-only string yields the empty string. -/
theorem all_space_strip (s : String) (h : s.data.all pyIsSpace = true) :
    pyStrip s = "" := by
  have h1 := all_dropWhile_nil s.data h
  unfold pyStrip pyStripList
  rw [h1]
  rfl

/-- The `FUTURE_WORK:` marker does not occur in a whitespace-only string. -/
theorem marker_not_in_space (l : List Char) (h : l.all pyIsSpace = true) :
    splitAtFirst ("FUTURE_WORK:".data) l = none := by
  induction l with
  | nil => rfl
  | cons c rest ih =>
    simp only [List.all_cons, Bool.and_eq_true] at h
    have hFc : ('F' == c) = false := by
      cases hq : ('F' == c) with
      | false => rfl
      | true =>
        have he : 'F' = c := eq_of_beq hq
        subst he
        exact absurd h.1 (by decide)
    have hdata : "FUTURE_WORK:".data = 'F' :: "UTURE_WORK:".data := rfl
    have hpre : List.isPrefixOf ("FUTURE_WORK:".data) (c :: rest) = false := by
      rw [hdata]
      simp [List.isPrefixOf, hFc]
    simp [splitAtFirst, hpre, ih h.2]

end AstroAgent

namespace AstroAgent

/-! ## Claim C1 -/

/-- Claim C1 counterexample: at topic "the nature of the universe" (with the
default `max_papers = 3`), the result count the pipeline passes to the search
provider is 3, not the budget 8 the spec's keyword tiers would derive. -/
theorem C1_counterexample :
    requestedResultCount ⟨"the nature of the universe", 3⟩ ≠
      specBudget "the nature of the universe" := by decide

/-- Claim C1 (amended): the result count passed to the search provider is the
request's `max_papers` field (pydantic default 3), independent of the topic;
consequently the pipeline's output depends on the search collaborator only
through its response at `(topic, max_papers)`. -/
theorem C1_amended (payload : AnalyzeTopicRequest)
    (parse : String → Option PyDateTime) (clk : Clock)
    (apiKey : Option String) (gem : GenOutcome)
    (s₁ s₂ : String → Int → List RawRecord)
    (h : s₁ payload.topic payload.max_papers = s₂ payload.topic payload.max_papers) :
    requestedResultCount payload = payload.max_papers ∧
    analyze s₁ parse clk apiKey gem payload = analyze s₂ parse clk apiKey gem payload := by
  refine ⟨rfl, ?_⟩
  simp only [analyze, requestedResultCount, h]

/-- Claim C1 amended witness at a concrete request and two search functions
agreeing at `(topic, max_papers)`. -/
theorem C1_witness :
    requestedResultCount ⟨"pulsar", 3⟩ = 3 ∧
    analyze (fun _ _ => []) fromisoformatModel clk0 none GenOutcome.throws
        ⟨"pulsar", 3⟩ =
      analyze (fun _ n => if n = 99 then [recBad] else []) fromisoformatModel
        clk0 none GenOutcome.throws ⟨"pulsar", 3⟩ :=
  C1_amended ⟨"pulsar", 3⟩ fromisoformatModel clk0 none GenOutcome.throws
    (fun _ _ => []) (fun _ n => if n = 99 then [recBad] else []) (by decide)

/-! ## Claim C2 -/

/-- Claim C2 counterexample: `analyze("dark energy")` (empty search results,
empty generative text) does NOT return an empty calculations list — the
`else` branch of `analyze_topic` emits a generic Schwarzschild entry. -/
theorem C2_counterexample :
    (analyze emptySearch fromisoformatModel clk0 none
      (GenOutcome.returns (some "")) ⟨"dark energy", 3⟩).calculations ≠ [] := by
  decide

/-- Claim C2 (amended): for every topic whose lowercased form contains none of
"black hole", "orbit", "exoplanet", "planet", the pipeline emits exactly ONE
Calculation entity, the generic "Schwarzschild radius (example)" fallback. -/
theorem C2_amended (topic : String)
    (h1 : pyIn "black hole" (pyLower topic) = false)
    (h2 : pyIn "orbit" (pyLower topic) = false)
    (h3 : pyIn "exoplanet" (pyLower topic) = false)
    (h4 : pyIn "planet" (pyLower topic) = false) :
    ∃ v : ℚ, computeCalculations topic =
      [⟨"Schwarzschild radius (example)", fmtComma2 v ++ " km",
        "Event horizon radius for a 10.0 M☉ black hole. Used as a generic astrophysical scale for this topic."⟩] :=
  ⟨schwarzschild_radius_km 10, by simp [computeCalculations, h1, h2, h3, h4]⟩

/-- Claim C2 amended witness at the topic "dark energy". -/
theorem C2_witness :
    pyIn "black hole" (pyLower "dark energy") = false ∧
    pyIn "orbit" (pyLower "dark energy") = false ∧
    pyIn "exoplanet" (pyLower "dark energy") = false ∧
    pyIn "planet" (pyLower "dark energy") = false ∧
    ∃ v : ℚ, computeCalculations "dark energy" =
      [⟨"Schwarzschild radius (example)", fmtComma2 v ++ " km",
        "Event horizon radius for a 10.0 M☉ black hole. Used as a generic astrophysical scale for this topic."⟩] :=
  ⟨by decide, by decide, by decide, by decide,
    C2_amended "dark energy" (by decide) (by decide) (by decide) (by decide)⟩

/-! ## Claim C3 -/

/-- Claim C3: topics containing "black hole" (on the lowercased topic) get
exactly the two Schwarzschild entries with `{value:,.2f} km` formatting;
topics containing "orbit"/"exoplanet"/"planet" but not "black hole" get
exactly the two orbital-period entries with `{value:.1f} days` formatting. -/
theorem C3_thm (topic : String) :
    (pyIn "black hole" (pyLower topic) = true →
      ∃ q₁ q₂ : ℚ, computeCalculations topic =
        [⟨"Schwarzschild radius (stellar-mass black hole)", fmtComma2 q₁ ++ " km",
          "Event horizon radius for a 10.0 M☉ black hole."⟩,
         ⟨"Schwarzschild radius (supermassive black hole)", fmtComma2 q₂ ++ " km",
          "Event horizon radius for a 4.0e+06 M☉ supermassive black hole (similar to the Milky Way's center)."⟩]) ∧
    (pyIn "black hole" (pyLower topic) = false →
      (pyIn "orbit" (pyLower topic) || pyIn "exoplanet" (pyLower topic)
        || pyIn "planet" (pyLower topic)) = true →
      ∃ q₁ q₂ : ℚ, computeCalculations topic =
        [⟨"Orbital period at 1 AU", fmt1 q₁ ++ " days",
          "Approximate orbital period of an Earth-like orbit around a Sun-like star."⟩,
         ⟨"Orbital period at 5 AU", fmt1 q₂ ++ " days",
          "Approximate orbital period for a Jupiter-like orbit around a Sun-like star."⟩]) := by
  constructor
  · intro h
    exact ⟨schwarzschild_radius_km 10, schwarzschild_radius_km 4000000,
      by simp [computeCalculations, h]⟩
  · intro h1 h2
    exact ⟨getOkQ (kepler_orbital_period_days 1 1),
      getOkQ (kepler_orbital_period_days 5 1),
      by simp [computeCalculations, h1, h2]⟩

/-- Claim C3 witness at the topic "black hole". -/
theorem C3_witness :
    pyIn "black hole" (pyLower "black hole") = true ∧
    ∃ q₁ q₂ : ℚ, computeCalculations "black hole" =
      [⟨"Schwarzschild radius (stellar-mass black hole)", fmtComma2 q₁ ++ " km",
        "Event horizon radius for a 10.0 M☉ black hole."⟩,
       ⟨"Schwarzschild radius (supermassive black hole)", fmtComma2 q₂ ++ " km",
        "Event horizon radius for a 4.0e+06 M☉ supermassive black hole (similar to the Milky Way's center)."⟩] :=
  ⟨by decide, (C3_thm "black hole").1 (by decide)⟩

/-! ## Claim C4 -/

/-- Claim C4: normalization is a 1:1, order-preserving map over the raw
records (no record dropped, the batch never aborted); a record whose
published timestamp fails to parse gets the current wall-clock reading. -/
theorem C4_thm (parse : String → Option PyDateTime) (clk : Clock)
    (rs : List RawRecord) :
    (normalize parse clk rs).length = rs.length ∧
    (∀ i : Nat, (normalize parse clk rs).get? i = (rs.get? i).map (normOne parse clk)) ∧
    (∀ r : RawRecord, parse (publishedRaw r) = none →
      (normOne parse clk r).published = utcnow clk) := by
  refine ⟨?_, ?_, ?_⟩
  · simp [normalize]
  · intro i
    simp [normalize, List.get?_map]
  · intro r h
    simp [normOne, h]

/-- Claim C4 witness: a two-record batch with one unparsable timestamp keeps
both records and substitutes the clock reading for the bad one. -/
theorem C4_witness :
    fromisoformatModel (publishedRaw recBad) = none ∧
    (normOne fromisoformatModel clk0 recBad).published = utcnow clk0 :=
  ⟨by decide, (C4_thm fromisoformatModel clk0 [recBad]).2.2 recBad (by decide)⟩

/-! ## Claim C5 -/

/-- Claim C5 counterexample: a record with an unparsable published string gets
the `datetime.utcnow()` fallback, which is timezone-NAIVE (`tzinfo is None`),
so the produced Paper's timestamp is not timezone-aware. -/
theorem C5_counterexample :
    (normOne fromisoformatModel clk0 recBad).published.tzOffsetMinutes = none ∧
    (normOne fromisoformatModel clk0 recBad).published = utcnow clk0 := by
  decide

/-- Claim C5 (amended): every produced Paper has a populated `published`
value — the successfully parsed datetime when parsing succeeds, otherwise
the substituted current processing time — but the substituted value is
timezone-naive, not timezone-aware. -/
theorem C5_amended (parse : String → Option PyDateTime) (clk : Clock)
    (r : RawRecord) :
    (∀ d : PyDateTime, parse (publishedRaw r) = some d →
      (normOne parse clk r).published = d) ∧
    (parse (publishedRaw r) = none →
      (normOne parse clk r).published = utcnow clk ∧
      (utcnow clk).tzOffsetMinutes = none) := by
  constructor
  · intro d h
    simp [normOne, h]
  · intro h
    exact ⟨by simp [normOne, h], rfl⟩

/-- Claim C5 amended witness: the well-formed Zulu-suffixed record parses to
an aware datetime which is kept verbatim. -/
theorem C5_witness :
    fromisoformatModel (publishedRaw recGood) = some ⟨2024, 1, 1, 0, 0, 0, some 0⟩ ∧
    (normOne fromisoformatModel clk0 recGood).published = ⟨2024, 1, 1, 0, 0, 0, some 0⟩ :=
  ⟨by decide,
    (C5_amended fromisoformatModel clk0 recGood).1 ⟨2024, 1, 1, 0, 0, 0, some 0⟩
      (by decide)⟩

end AstroAgent

namespace AstroAgent

/-! ## Claim C6 -/

/-- Claim C6 counterexample: `kepler_orbital_period_days(-1.0, 1.0)` fails
(`math.sqrt` raises `ValueError: math domain error` on the negative radicand)
even though the star mass 1 is positive, so "fails iff star mass <= 0" does
not hold as stated. -/
theorem C6_counterexample :
    isOkE (kepler_orbital_period_days (-1) 1) = false ∧ ¬ ((1 : ℚ) ≤ 0) := by
  have hM : ¬ ((1 : ℚ) ≤ 0) := by norm_num
  have hneg : ((-1 : ℚ)) ^ 3 < 0 := by norm_num
  exact ⟨by simp [kepler_orbital_period_days, kepler_orbital_period_years,
    math_sqrtE, isOkE, Except.map, hM, hneg], hM⟩

/-- Claim C6 (amended): for nonnegative semi-major axis, the orbital-period
function fails if and only if the star mass is `<= 0` (so it returns normally
for every positive star mass), and the Calculation Engine's fixed-parameter
calls at 1 AU and 5 AU around a 1-solar-mass star never fail. -/
theorem C6_amended :
    (∀ a M : ℚ, 0 ≤ a →
      (isOkE (kepler_orbital_period_days a M) = false ↔ M ≤ 0)) ∧
    isOkE (kepler_orbital_period_days 1 1) = true ∧
    isOkE (kepler_orbital_period_days 5 1) = true := by
  have h10 : ¬ ((1 : ℚ) ≤ 0) := by norm_num
  have h1 : ¬ ((1 : ℚ) < 0) := by norm_num
  have h5 : ¬ ((5 : ℚ) ^ 3 < 0) := by norm_num
  refine ⟨?_,
    by simp [kepler_orbital_period_days, kepler_orbital_period_years,
      math_sqrtE, isOkE, Except.map, h10, h1],
    by simp [kepler_orbital_period_days, kepler_orbital_period_years,
      math_sqrtE, isOkE, Except.map, h10, h5]⟩
  intro a M ha
  by_cases hM : M ≤ 0
  · simp [kepler_orbital_period_days, kepler_orbital_period_years, hM, isOkE,
      Except.map]
  · have hM' : (0 : ℚ) < M := not_le.mp hM
    have hnn : (0 : ℚ) ≤ a ^ 3 / M := div_nonneg (pow_nonneg ha 3) hM'.le
    simp [kepler_orbital_period_days, kepler_orbital_period_years, hM,
      math_sqrtE, not_lt.mpr hnn, isOkE, Except.map]

/-- Claim C6 amended witness at the engine's 5 AU call. -/
theorem C6_witness :
    (0 : ℚ) ≤ 5 ∧ isOkE (kepler_orbital_period_days 5 1) = true := by
  refine ⟨by norm_num, ?_⟩
  have h := (C6_amended).1 5 1 (by norm_num)
  cases hc : isOkE (kepler_orbital_period_days 5 1) with
  | false => exact absurd (h.mp hc) (by norm_num)
  | true => rfl

/-! ## Claim C7 -/

/-- Claim C7 counterexample: when `OVERVIEW:` occurs before the marker but
not as a prefix, the code's `str.replace` still removes it, so the overview
is not "everything before the marker with an OVERVIEW: prefix stripped if
present" — the two parses disagree on this input. -/
theorem C7_counterexample :
    parseGeminiText "A OVERVIEW: B FUTURE_WORK: C" = ("A  B", "C") ∧
    specParseGeminiText "A OVERVIEW: B FUTURE_WORK: C" = ("A OVERVIEW: B", "C") ∧
    ("A  B" : String) ≠ "A OVERVIEW: B" := by
  decide

/-- Claim C7 (amended): when the response text contains `FUTURE_WORK:`, the
overview is everything before the first marker with EVERY occurrence of
`OVERVIEW:` removed and whitespace trimmed, and future-work is everything
after, trimmed; with no marker the whole text, trimmed, is the overview and
future-work is empty; the spec's two-section example parses to exactly
`("Foo.", "Bar.")`. -/
theorem C7_amended :
    (∀ (text : String) (b a : List Char),
      splitAtFirst ("FUTURE_WORK:".data) text.data = some (b, a) →
      parseGeminiText text =
        (pyStrip ⟨replaceList ("OVERVIEW:".data) [] b⟩, pyStrip ⟨a⟩)) ∧
    (∀ text : String,
      splitAtFirst ("FUTURE_WORK:".data) text.data = none →
      parseGeminiText text = (pyStrip text, "")) ∧
    parseGeminiText "OVERVIEW:\nFoo.\n\nFUTURE_WORK:\nBar." = ("Foo.", "Bar.") := by
  refine ⟨?_, ?_, by decide⟩
  · intro text b a h
    simp [parseGeminiText, h]
  · intro text h
    simp [parseGeminiText, h]

/-- Claim C7 amended witness at a concrete marker-bearing response. -/
theorem C7_witness :
    splitAtFirst ("FUTURE_WORK:".data) ("x FUTURE_WORK:y".data) =
      some ("x ".data, "y".data) ∧
    parseGeminiText "x FUTURE_WORK:y" = ("x", "y") :=
  ⟨by decide,
    ((C7_amended).1 "x FUTURE_WORK:y" ("x ".data) ("y".data) (by decide)).trans
      (by decide)⟩

/-! ## Claim C8 -/

/-- Claim C8: the report synthesizer is a total function (the catch-all in
the source never lets an exception escape), and it returns two empty strings
whenever the credential is missing or empty, the provider call throws, or
the returned text is empty/absent/whitespace-only. -/
theorem C8_thm :
    (∀ out : GenOutcome, generate_report none out = ("", "")) ∧
    (∀ out : GenOutcome, generate_report (some "") out = ("", "")) ∧
    (∀ k : Option String, generate_report k GenOutcome.throws = ("", "")) ∧
    (∀ (k : String) (t : Option String),
      (t.getD "").data.all pyIsSpace = true →
      generate_report (some k) (GenOutcome.returns t) = ("", "")) := by
  refine ⟨fun out => rfl, fun out => rfl, ?_, ?_⟩
  · intro k
    cases k with
    | none => rfl
    | some s =>
      by_cases hs : s = ""
      · simp [generate_report, hs]
      · simp [generate_report, hs]
  · intro k t h
    by_cases hk : k = ""
    · simp [generate_report, hk]
    · have hsplit := marker_not_in_space ((t.getD "").data) h
      have hstrip := all_space_strip (t.getD "") h
      simp [generate_report, hk, parseGeminiText, hsplit, hstrip]

/-- Claim C8 witness: configured key, whitespace-only model response. -/
theorem C8_witness :
    ((some "  \n" : Option String).getD "").data.all pyIsSpace = true ∧
    generate_report (some "key") (GenOutcome.returns (some "  \n")) = ("", "") :=
  ⟨by decide, (C8_thm).2.2.2 "key" (some "  \n") (by decide)⟩

/-! ## Claim C9 -/

/-- Claim C9: whenever the Gemini summarization yields the empty string, the
orchestrator's overview is exactly the deterministic fallback template with
N the number of normalized papers and the echoed input topic. -/
theorem C9_thm (search : String → Int → List RawRecord)
    (parse : String → Option PyDateTime) (clk : Clock)
    (apiKey : Option String) (gem : GenOutcome) (payload : AnalyzeTopicRequest)
    (h : summarize_with_gemini apiKey gem payload.topic
      (normalize parse clk (search payload.topic (requestedResultCount payload)))
      (computeCalculations payload.topic) = "") :
    (analyze search parse clk apiKey gem payload).overview =
      "This report is based on " ++
        toString (normalize parse clk
          (search payload.topic (requestedResultCount payload))).length ++
        " arXiv result(s) for the topic '" ++ payload.topic ++
        "'. The summaries below are extracted directly from the arXiv abstracts." := by
  simp [analyze, h, fallbackOverview]

/-- Claim C9 witness: no credential and zero search results for
"dark energy" produce the fallback overview naming 0 arXiv result(s). -/
theorem C9_witness :
    summarize_with_gemini none GenOutcome.throws "dark energy"
      (normalize fromisoformatModel clk0
        (emptySearch "dark energy" (requestedResultCount ⟨"dark energy", 3⟩)))
      (computeCalculations "dark energy") = "" ∧
    (analyze emptySearch fromisoformatModel clk0 none GenOutcome.throws
      ⟨"dark energy", 3⟩).overview =
      "This report is based on 0 arXiv result(s) for the topic 'dark energy'. The summaries below are extracted directly from the arXiv abstracts." :=
  ⟨rfl,
    (C9_thm emptySearch fromisoformatModel clk0 none GenOutcome.throws
      ⟨"dark energy", 3⟩ rfl).trans (by decide)⟩

/-! ## Claim C10 -/

/-- Claim C10: for every topic, request, search outcome and generative
outcome (success or failure alike), the returned `future_work` is the one
fixed template sentence — the generative output is never used for it. -/
theorem C10_thm (search : String → Int → List RawRecord)
    (parse : String → Option PyDateTime) (clk : Clock)
    (apiKey : Option String) (gem : GenOutcome)
    (payload : AnalyzeTopicRequest) :
    (analyze search parse clk apiKey gem payload).future_work =
      "In future iterations, this agent will include more detailed reasoning, topic clustering, citation graph analysis, and astrophysical calculations tailored to the query." :=
  rfl

end AstroAgent
